import Mathlib

/-!
Verification of the phone-outreach campaign manager (componentsapp).

The definitions below are a shallow embedding of the programs core logic:
the campaign data model (src/types), the date helpers `formatDate` and
`parseDate` over the pattern dd/MM/yyyy HH:mm (src/utils/index.ts lines
22-28), the status reconciler `updateCampaignStatuses` (src/utils/index.ts
lines 39-66 and src/components/HomePage.tsx lines 21-47), the person
validation helpers `isValidPhoneNumber` and `formatPhoneNumber`
(CampaignForm lines 84-98, CampaignList lines 501-515), and the lifecycle
operations `handleFinish`, `handleDelete`, `handleDeletePerson`,
`handleAddPerson` (CampaignList lines 572-661) and `handleSubmit`
(CampaignForm lines 194-215).

Timestamps are modelled at minute precision as civil date-time records;
`dateKey` is a strictly monotone encoding of a civil date-time into a
natural number, standing in for the epoch-millisecond value that the
code obtains via getTime().  An invalid parse is modelled as `none`; the
code obtains NaN there, and every NaN comparison is false, which `nowGE`
reproduces.
-/

namespace CampaignApp

/-- The status enumeration; the persisted labels are "En espera" (Waiting),
"Activa" (Active) and "Finalizada" (Finished).  From src/types part_000. -/
inductive CampaignStatus where
  | enEspera
  | activa
  | finalizada
deriving DecidableEq, Repr

/-- Person record, from src/types part_000. -/
structure Person where
  id : String
  name : String
  lastName : String
  phone : String
deriving DecidableEq, Repr

/-- Campaign record, from src/types part_000.  Dates are persisted as
strings in the dd/MM/yyyy HH:mm format. -/
structure Campaign where
  id : String
  name : String
  createdAt : String
  startDate : String
  endDate : String
  recordingStatus : Bool
  status : CampaignStatus
  people : List Person
deriving DecidableEq, Repr

/-- A civil date-time at minute precision (the resolution of the
persisted dd/MM/yyyy HH:mm format). -/
structure DateTime where
  year : Nat
  month : Nat
  day : Nat
  hour : Nat
  minute : Nat
deriving DecidableEq, Repr

/-- The character of a decimal digit value. -/
def digitChar (n : Nat) : Char := Char.ofNat (48 + n)

/-- The decimal value of a digit character. -/
def digitVal (c : Char) : Nat := c.toNat - 48

/-- Gregorian leap-year rule. -/
def isLeap (y : Nat) : Bool := (y % 4 == 0 && y % 100 != 0) || y % 400 == 0

/-- Number of days of a month in a given year. -/
def daysInMonth (y m : Nat) : Nat :=
  if m = 2 then (if isLeap y then 29 else 28)
  else if m = 4 ∨ m = 6 ∨ m = 9 ∨ m = 11 then 30
  else 31

/-- Validity of a civil date-time: a real calendar date whose year fits
the fixed four-digit yyyy field, with a 24-hour clock at minute
precision. -/
def DateTime.valid (d : DateTime) : Bool :=
  decide (1 ≤ d.year) && decide (d.year ≤ 9999) &&
  decide (1 ≤ d.month) && decide (d.month ≤ 12) &&
  decide (1 ≤ d.day) && decide (d.day ≤ daysInMonth d.year d.month) &&
  decide (d.hour ≤ 23) && decide (d.minute ≤ 59)

/-- format(date, "dd/MM/yyyy HH:mm") from src/utils/index.ts line 22:
two-digit day, two-digit month, four-digit year, space, two-digit hour,
two-digit minute, zero padded. -/
def formatDate (d : DateTime) : String :=
  String.mk [digitChar (d.day / 10), digitChar (d.day % 10), '/',
             digitChar (d.month / 10), digitChar (d.month % 10), '/',
             digitChar (d.year / 1000), digitChar (d.year / 100 % 10),
             digitChar (d.year / 10 % 10), digitChar (d.year % 10), ' ',
             digitChar (d.hour / 10), digitChar (d.hour % 10), ':',
             digitChar (d.minute / 10), digitChar (d.minute % 10)]

/-- Character-list worker for `parseDate`: the sixteen fixed positions of
dd/MM/yyyy HH:mm, with the component-range validation that date-fns
applies (an out-of-range component yields an invalid date). -/
def parseChars : List Char → Option DateTime
  | [d1, d2, c1, m1, m2, c2, y1, y2, y3, y4, c3, h1, h2, c4, n1, n2] =>
    if c1 = '/' ∧ c2 = '/' ∧ c3 = ' ' ∧ c4 = ':' ∧
       d1.isDigit ∧ d2.isDigit ∧ m1.isDigit ∧ m2.isDigit ∧
       y1.isDigit ∧ y2.isDigit ∧ y3.isDigit ∧ y4.isDigit ∧
       h1.isDigit ∧ h2.isDigit ∧ n1.isDigit ∧ n2.isDigit then
      let dt : DateTime :=
        ⟨1000 * digitVal y1 + 100 * digitVal y2 + 10 * digitVal y3 + digitVal y4,
         10 * digitVal m1 + digitVal m2,
         10 * digitVal d1 + digitVal d2,
         10 * digitVal h1 + digitVal h2,
         10 * digitVal n1 + digitVal n2⟩
      if dt.valid then some dt else none
    else none
  | _ => none

/-- parse(dateString, "dd/MM/yyyy HH:mm", new Date()) from
src/utils/index.ts line 26; `none` models the Invalid Date result. -/
def parseDate (s : String) : Option DateTime := parseChars s.data

/-- A strictly monotone encoding of a civil date-time into a natural
number, standing in for the epoch milliseconds of getTime(). -/
def dateKey (d : DateTime) : Nat :=
  (((d.year * 13 + d.month) * 32 + d.day) * 24 + d.hour) * 60 + d.minute

/-- The numeric time of a persisted date string, when it parses. -/
def timeKey (s : String) : Option Nat := (parseDate s).map dateKey

/-- The comparison `now >= parsed.getTime()`: false when the parse
failed, because every comparison against NaN is false. -/
def nowGE (now : Nat) : Option Nat → Bool
  | some t => decide (t ≤ now)
  | none => false

/-- phone.replace(/\D/g, "") from CampaignForm line 85 and CampaignList
line 502: keep only the ASCII decimal digits. -/
def stripDigits (s : String) : String := String.mk (s.data.filter Char.isDigit)

/-- isValidPhoneNumber from CampaignForm lines 84-87: between 7 and 15
digits after stripping non-digit characters. -/
def isValidPhoneNumber (phone : String) : Bool :=
  decide (7 ≤ (stripDigits phone).length) && decide ((stripDigits phone).length ≤ 15)

/-- formatPhoneNumber from CampaignForm lines 89-98: strips non-digits,
then groups as (AAA) BBB-CCCC; only the first ten digits survive the
final grouping. -/
def formatPhoneNumber (value : String) : String :=
  if value = "" then value
  else
    let phoneNumber := value.data.filter Char.isDigit
    if phoneNumber.length < 4 then String.mk phoneNumber
    else if phoneNumber.length < 7 then
      String.mk ('(' :: phoneNumber.take 3 ++ ')' :: ' ' :: phoneNumber.drop 3)
    else
      String.mk ('(' :: phoneNumber.take 3 ++ ')' :: ' ' ::
        (phoneNumber.drop 3).take 3 ++ '-' :: (phoneNumber.drop 6).take 4)

/-- The whitespace class \s of a JavaScript regular expression. -/
def jsWhitespace (c : Char) : Bool :=
  c == ' ' || c == '\t' || c == '\n' || c == '\r' ||
  c.toNat == 11 || c.toNat == 12 ||
  c.toNat == 0xa0 || c.toNat == 0x1680 ||
  (decide (0x2000 ≤ c.toNat) && decide (c.toNat ≤ 0x200a)) ||
  c.toNat == 0x2028 || c.toNat == 0x2029 || c.toNat == 0x202f ||
  c.toNat == 0x205f || c.toNat == 0x3000 || c.toNat == 0xfeff

/-- The twelve accented characters listed in the name regex. -/
def spanishAccent (c : Char) : Bool :=
  c == 'á' || c == 'é' || c == 'í' || c == 'ó' || c == 'ú' || c == 'ñ' ||
  c == 'Á' || c == 'É' || c == 'Í' || c == 'Ó' || c == 'Ú' || c == 'Ñ'

/-- One character of the class [a-zA-ZáéíóúñÁÉÍÓÚÑ\s]. -/
def allowedNameChar (c : Char) : Bool :=
  c.isAlpha || spanishAccent c || jsWhitespace c

/-- The test /^[a-zA-ZáéíóúñÁÉÍÓÚÑ\s]+$/.test(input) applied to the name
and last-name fields (CampaignForm lines 220 and 227, CampaignList lines
615 and 622): one or more characters of the class, anchored at both
ends, with no trimming. -/
def isValidName (s : String) : Bool :=
  !s.data.isEmpty && s.data.all allowedNameChar

/-- The per-campaign body of the reconciler map (src/utils/index.ts
lines 44-59, HomePage lines 25-40): if the campaign is En espera and now
is at or past its start it becomes Activa, else if it is Activa and now
is at or past its end it becomes Finalizada; the second test reads the
status the record had before the pass.  The Bool is the contribution of
this record to the `updated` flag. -/
def updateOneCampaign (now : Nat) (c : Campaign) : Campaign × Bool :=
  if c.status = CampaignStatus.enEspera ∧ nowGE now (timeKey c.startDate) then
    ({ c with status := CampaignStatus.activa }, true)
  else if c.status = CampaignStatus.activa ∧ nowGE now (timeKey c.endDate) then
    ({ c with status := CampaignStatus.finalizada }, true)
  else (c, false)

/-- updateCampaignStatuses (src/utils/index.ts lines 39-66) restricted to
its pure core: the mapped list and the `updated` flag that decides
whether the list is persisted. -/
def updateCampaignStatuses (now : Nat) (campaigns : List Campaign) :
    List Campaign × Bool :=
  (campaigns.map (fun c => (updateOneCampaign now c).1),
   campaigns.any (fun c => (updateOneCampaign now c).2))

/-- The error kinds of the rejected operations. -/
inductive OpError where
  | invalidTransition
  | validationError
  | duplicatePhone
  | lastPersonError
deriving DecidableEq, Repr

deriving instance DecidableEq for Except

/-- handleAddPerson from CampaignList lines 612-661, composed with the two
pieces that surround it in the source: the phone field onChange stores
formatPhoneNumber of the typed value (lines 763-765), and the add dialog
can only be opened for a campaign whose status is not Finalizada because
the opening button is rendered only under that condition (line 726) -
that conditional render is the only barrier against adding a person to a
finished campaign.  An error result models an early return: nothing is
persisted. -/
def handleAddPerson (campaigns : List Campaign) (campaignId : String)
    (newPersonName newPersonLastName phoneTyped newId : String) :
    Except OpError (List Campaign) :=
  match campaigns.find? (fun c => c.id == campaignId) with
  | none => Except.ok campaigns
  | some c =>
    if c.status = CampaignStatus.finalizada then Except.error OpError.invalidTransition
    else
      let newPersonPhone := formatPhoneNumber phoneTyped
      if !(isValidName newPersonName && isValidName newPersonLastName &&
           isValidPhoneNumber newPersonPhone) then
        Except.error OpError.validationError
      else if c.people.any (fun p => p.phone == newPersonPhone) then
        Except.error OpError.duplicatePhone
      else
        Except.ok (campaigns.map (fun x =>
          if x.id == c.id then
            { c with people := c.people ++ [⟨newId, newPersonName, newPersonLastName, newPersonPhone⟩] }
          else x))

/-- handleDeletePerson from CampaignList lines 595-610: reject on a
finished campaign, reject when the roster would become empty, otherwise
remove the person by id; a missing campaign id silently does nothing. -/
def handleDeletePerson (campaigns : List Campaign) (campaignId personId : String) :
    Except OpError (List Campaign) :=
  match campaigns.find? (fun c => c.id == campaignId) with
  | none => Except.ok campaigns
  | some c =>
    if c.status = CampaignStatus.finalizada then Except.error OpError.invalidTransition
    else if c.people.length ≤ 1 then Except.error OpError.lastPersonError
    else
      Except.ok (campaigns.map (fun x =>
        if x.id == c.id then { c with people := c.people.filter (fun p => !(p.id == personId)) }
        else x))

/-- handleFinish from CampaignList lines 572-579: only an Activa campaign
can be finished; any other case, including an unknown id, reaches the
error branch. -/
def handleFinish (campaigns : List Campaign) (campaignId : String) :
    Except OpError (List Campaign) :=
  match campaigns.find? (fun c => c.id == campaignId) with
  | some c =>
    if c.status = CampaignStatus.activa then
      Except.ok (campaigns.map (fun x =>
        if x.id == campaignId then { x with status := CampaignStatus.finalizada } else x))
    else Except.error OpError.invalidTransition
  | none => Except.error OpError.invalidTransition

/-- handleDelete and confirmDelete from CampaignList lines 581-593: only
an En espera campaign can be deleted; the deletion filters the campaign
out of the whole set. -/
def handleDelete (campaigns : List Campaign) (campaignId : String) :
    Except OpError (List Campaign) :=
  match campaigns.find? (fun c => c.id == campaignId) with
  | some c =>
    if c.status = CampaignStatus.enEspera then
      Except.ok (campaigns.filter (fun x => !(x.id == campaignId)))
    else Except.error OpError.invalidTransition
  | none => Except.error OpError.invalidTransition

/-- handleSubmit from CampaignForm lines 194-215.  In edit mode the
campaign keeps its id and createdAt and the new people list is the
concatenation of the stored roster with the people state of the form -
and the people state is initialised to the stored roster when the form
opens (line 140).  When the chosen status is Activa the start date is
forced to now.  The caller passes the form state explicitly. -/
def handleSubmit (campaigns : List Campaign) (campaign? : Option Campaign)
    (newId name : String) (now startDate endDate : DateTime)
    (recordingStatus : Bool) (status : CampaignStatus) (people : List Person) :
    List Campaign :=
  let actualStartDate := if status = CampaignStatus.activa then now else startDate
  let newCampaign : Campaign :=
    { id := match campaign? with | some c => c.id | none => newId,
      name := name,
      createdAt := match campaign? with | some c => c.createdAt | none => formatDate now,
      startDate := formatDate actualStartDate,
      endDate := formatDate endDate,
      recordingStatus := recordingStatus,
      status := status,
      people := (match campaign? with | some c => c.people | none => []) ++ people }
  match campaign? with
  | some c => campaigns.map (fun x => if x.id == c.id then newCampaign else x)
  | none => campaigns ++ [newCampaign]

/-- The people state of the campaign form at opening time in edit mode
(CampaignForm line 140): it starts as the stored roster. -/
def editFormInitialPeople (campaign : Campaign) : List Person := campaign.people

/-- Invariant 4 of the data model: no two people of one roster share a
digit-normalized phone. -/
def phonesUnique : List Person → Bool
  | [] => true
  | p :: rest =>
    rest.all (fun q => !(stripDigits p.phone == stripDigits q.phone)) && phonesUnique rest

/-- Trimming over a character list: drop regex whitespace at both ends. -/
def trimChars (l : List Char) : List Char :=
  ((l.dropWhile jsWhitespace).reverse.dropWhile jsWhitespace).reverse

/-- A Unicode-aware letter class following the spec words for the name
validator: it must contain all Unicode letters, in particular every
accented form.  Approximated here by the ASCII letters together with the
Latin-1 supplement letters (which already include accented forms such as
the letter u with diaeresis that the code rejects). -/
def unicodeLetter (c : Char) : Bool :=
  c.isAlpha ||
  (decide (0xc0 ≤ c.toNat) && decide (c.toNat ≤ 0xff) &&
   !(c.toNat == 0xd7) && !(c.toNat == 0xf7))

/-- The name validator as the spec states it (written from the spec
words, for comparison against `isValidName`): accept when the entire
trimmed string consists of one or more letters or spaces under a
Unicode-aware letter class. -/
def specNameAccepts (s : String) : Bool :=
  !(trimChars s.data).isEmpty &&
  (trimChars s.data).all (fun c => unicodeLetter c || c == ' ')

/-- Rank of a status along the forward direction of the lifecycle. -/
def statusRank : CampaignStatus → Nat
  | CampaignStatus.enEspera => 0
  | CampaignStatus.activa => 1
  | CampaignStatus.finalizada => 2

/-- The successive states of one campaign under a sequence of
reconciliation passes at the given clock values. -/
def trajectory (c : Campaign) (ts : List Nat) : List Campaign :=
  List.scanl (fun c t => (updateOneCampaign t c).1) c ts

/-- A concrete person with a display-formatted stored phone, as every
phone stored through the forms is. -/
def p0 : Person := ⟨"p1", "Ana", "Gomez", "(555) 123-4567"⟩

/-- A Waiting campaign whose start and end are both in the past relative
to the concrete clock `n0`. -/
def w0 : Campaign :=
  { id := "c1", name := "Q1", createdAt := "01/01/2020 00:00",
    startDate := "01/01/2020 08:00", endDate := "01/01/2020 09:00",
    recordingStatus := false, status := CampaignStatus.enEspera, people := [p0] }

/-- A Waiting campaign whose start is past but whose end is in the
future relative to `n0`. -/
def w1 : Campaign :=
  { id := "c2", name := "Q2", createdAt := "01/01/2020 00:00",
    startDate := "01/01/2020 08:00", endDate := "01/01/2030 09:00",
    recordingStatus := false, status := CampaignStatus.enEspera, people := [p0] }

/-- An Active campaign with one person on the roster. -/
def a0 : Campaign :=
  { id := "c3", name := "Q3", createdAt := "01/01/2020 00:00",
    startDate := "01/01/2020 08:00", endDate := "01/01/2030 09:00",
    recordingStatus := false, status := CampaignStatus.activa, people := [p0] }

/-- A Finished campaign with one person on the roster. -/
def f0 : Campaign :=
  { id := "c4", name := "Q4", createdAt := "01/01/2020 00:00",
    startDate := "01/01/2020 08:00", endDate := "01/01/2020 09:00",
    recordingStatus := false, status := CampaignStatus.finalizada, people := [p0] }

/-- A concrete clock value, the first of June 2021 at noon. -/
def n0 : Nat := dateKey ⟨2021, 6, 1, 12, 0⟩

/-- A concrete form date used by the concrete edit scenario. -/
def dt0 : DateTime := ⟨2020, 1, 1, 8, 0⟩

end CampaignApp

namespace CampaignApp

/-! ### Helper lemmas -/

theorem digitVal_digitChar :
    ∀ k, k < 10 → digitVal (digitChar k) = k ∧ (digitChar k).isDigit = true := by
  decide

theorem daysInMonth_le : ∀ y m, daysInMonth y m ≤ 31 := by
  intro y m
  unfold daysInMonth
  split_ifs <;> omega

theorem trajectory_head (c : Campaign) (ts : List Nat) :
    (List.scanl (fun c t => (updateOneCampaign t c).1) c ts).head? = some c := by
  cases ts <;> simp [List.scanl_nil, List.scanl_cons]

theorem statusRank_le_updateOne (now : Nat) (c : Campaign) :
    statusRank c.status ≤ statusRank (updateOneCampaign now c).1.status := by
  unfold updateOneCampaign
  split_ifs <;> simp_all [statusRank]

theorem trajectory_chain (c : Campaign) (ts : List Nat) :
    List.Chain' (fun a b => statusRank a.status ≤ statusRank b.status) (trajectory c ts) := by
  induction ts generalizing c with
  | nil => simp [trajectory, List.scanl_nil]
  | cons t rest ih =>
    have hc : trajectory c (t :: rest) =
        c :: List.scanl (fun c t => (updateOneCampaign t c).1) ((updateOneCampaign t c).1) rest := rfl
    rw [hc]
    refine List.chain'_cons'.2 ⟨?_, ih _⟩
    intro y hy
    rw [trajectory_head, Option.mem_def, Option.some.injEq] at hy
    subst hy
    exact statusRank_le_updateOne t c

theorem updateOne_fix (now : Nat) (c : Campaign)
    (h : ¬(c.status = CampaignStatus.enEspera ∧ nowGE now (timeKey c.startDate) = true ∧
           nowGE now (timeKey c.endDate) = true)) :
    updateOneCampaign now (updateOneCampaign now c).1 = ((updateOneCampaign now c).1, false) := by
  unfold updateOneCampaign
  split_ifs <;> simp_all

/-! ### C1: double transition in one pass -/

/-- C1, counterexample.  A Waiting campaign whose start and end are both
at or before the clock is left at Activa by a single reconciliation
pass, not taken to Finalizada as the claim states: the Activa to
Finalizada test reads the status the record had before the pass. -/
theorem singlePass_leaves_active :
    w0.status = CampaignStatus.enEspera ∧
    nowGE n0 (timeKey w0.startDate) = true ∧
    nowGE n0 (timeKey w0.endDate) = true ∧
    (updateOneCampaign n0 w0).1.status = CampaignStatus.activa ∧
    (updateOneCampaign n0 w0).1.status ≠ CampaignStatus.finalizada := by
  decide

/-- C1, amended.  A Waiting campaign whose start and end are both at or
before the clock is promoted to Activa by the first reconciliation pass
and only a second pass at the same clock takes it to Finalizada. -/
theorem waiting_past_both_needs_two_passes (now : Nat) (c : Campaign)
    (h1 : c.status = CampaignStatus.enEspera)
    (h2 : nowGE now (timeKey c.startDate) = true)
    (h3 : nowGE now (timeKey c.endDate) = true) :
    (updateOneCampaign now c).1.status = CampaignStatus.activa ∧
    (updateOneCampaign now (updateOneCampaign now c).1).1.status = CampaignStatus.finalizada := by
  have hfst : updateOneCampaign now c = ({ c with status := CampaignStatus.activa }, true) := by
    unfold updateOneCampaign
    rw [if_pos ⟨h1, h2⟩]
  rw [hfst]
  refine ⟨rfl, ?_⟩
  unfold updateOneCampaign
  rw [if_neg (by simp), if_pos ⟨rfl, h3⟩]

/-- Witness for the amended C1 at the concrete campaign `w0` and clock
`n0`. -/
theorem waiting_past_both_needs_two_passes_witness :
    (w0.status = CampaignStatus.enEspera ∧ nowGE n0 (timeKey w0.startDate) = true ∧
     nowGE n0 (timeKey w0.endDate) = true) ∧
    ((updateOneCampaign n0 w0).1.status = CampaignStatus.activa ∧
     (updateOneCampaign n0 (updateOneCampaign n0 w0).1).1.status = CampaignStatus.finalizada) :=
  ⟨⟨by decide, by decide, by decide⟩,
   waiting_past_both_needs_two_passes n0 w0 (by decide) (by decide) (by decide)⟩

/-! ### C2: idempotent reconciliation -/

/-- C2, counterexample.  Reconciling the list [w0] twice at the same
clock changes the list again on the second pass and reports a change:
the first pass promotes w0 to Activa, the second takes the promoted
record to Finalizada. -/
theorem second_pass_changes :
    (updateCampaignStatuses n0 (updateCampaignStatuses n0 [w0]).1).2 = true ∧
    (updateCampaignStatuses n0 (updateCampaignStatuses n0 [w0]).1).1 ≠
      (updateCampaignStatuses n0 [w0]).1 := by
  decide

/-- C2, amended.  The second of two immediate reconciliation passes
returns the same list and reports no change, provided no campaign of the
list is Waiting with both its start and its end at or before the clock;
such a campaign is promoted only to Activa by the first pass and
advances again on the second. -/
theorem second_pass_noop (now : Nat) (l : List Campaign)
    (h : ∀ c ∈ l, ¬(c.status = CampaignStatus.enEspera ∧ nowGE now (timeKey c.startDate) = true ∧
         nowGE now (timeKey c.endDate) = true)) :
    updateCampaignStatuses now (updateCampaignStatuses now l).1 =
      ((updateCampaignStatuses now l).1, false) := by
  unfold updateCampaignStatuses
  simp only [List.map_map, List.any_map, Prod.mk.injEq]
  constructor
  · apply List.map_congr_left
    intro c hc
    have := updateOne_fix now c (h c hc)
    simp [Function.comp, this]
  · rw [List.any_eq_false]
    intro c hc
    have := updateOne_fix now c (h c hc)
    simp [Function.comp, this]

/-- Witness for the amended C2 at the concrete list [w1, a0, f0] and
clock `n0`. -/
theorem second_pass_noop_witness :
    (∀ c ∈ [w1, a0, f0], ¬(c.status = CampaignStatus.enEspera ∧
        nowGE n0 (timeKey c.startDate) = true ∧ nowGE n0 (timeKey c.endDate) = true)) ∧
    updateCampaignStatuses n0 (updateCampaignStatuses n0 [w1, a0, f0]).1 =
      ((updateCampaignStatuses n0 [w1, a0, f0]).1, false) :=
  ⟨by decide, second_pass_noop n0 [w1, a0, f0] (by decide)⟩

/-! ### C8: monotonic status -/

/-- C8.  Along any sequence of reconciliation passes at non-decreasing
clock values, the status rank of a campaign never decreases between
consecutive states: Finalizada never reverts, Activa never returns to En
espera.  (The proof never needs the clock hypothesis: the reconciler
only ever moves the status forward.) -/
theorem status_never_regresses (c : Campaign) (ts : List Nat)
    (hts : List.Chain' (· ≤ ·) ts) :
    List.Chain' (fun a b => statusRank a.status ≤ statusRank b.status) (trajectory c ts) :=
  trajectory_chain c ts

/-- Witness for C8 at the concrete campaign `w0` and the clocks n0 and
n0 + 600. -/
theorem status_never_regresses_witness :
    List.Chain' (· ≤ ·) [n0, n0 + 600] ∧
    List.Chain' (fun a b => statusRank a.status ≤ statusRank b.status)
      (trajectory w0 [n0, n0 + 600]) :=
  ⟨by simp, status_never_regresses w0 [n0, n0 + 600] (by simp)⟩

end CampaignApp

namespace CampaignApp

/-! ### C9: date round trip -/

/-- C9.  Formatting any valid minute-precision timestamp with the
dd/MM/yyyy HH:mm pattern of `formatDate` and parsing the resulting
string back with `parseDate` returns exactly the same timestamp. -/
theorem parseDate_formatDate (d : DateTime) (h : d.valid = true) :
    parseDate (formatDate d) = some d := by
  obtain ⟨y, mo, dy, hr, mi⟩ := d
  simp only [DateTime.valid, Bool.and_eq_true, decide_eq_true_eq] at h
  obtain ⟨⟨⟨⟨⟨⟨⟨h1, h2⟩, h3⟩, h4⟩, h5⟩, h6⟩, h7⟩, h8⟩ := h
  have hdy : dy ≤ 31 := le_trans h6 (daysInMonth_le y mo)
  have e1 := digitVal_digitChar (dy / 10) (by omega)
  have e2 := digitVal_digitChar (dy % 10) (by omega)
  have e3 := digitVal_digitChar (mo / 10) (by omega)
  have e4 := digitVal_digitChar (mo % 10) (by omega)
  have e5 := digitVal_digitChar (y / 1000) (by omega)
  have e6 := digitVal_digitChar (y / 100 % 10) (by omega)
  have e7 := digitVal_digitChar (y / 10 % 10) (by omega)
  have e8 := digitVal_digitChar (y % 10) (by omega)
  have e9 := digitVal_digitChar (hr / 10) (by omega)
  have e10 := digitVal_digitChar (hr % 10) (by omega)
  have e11 := digitVal_digitChar (mi / 10) (by omega)
  have e12 := digitVal_digitChar (mi % 10) (by omega)
  show parseChars _ = _
  rw [show (formatDate ⟨y, mo, dy, hr, mi⟩).data =
    [digitChar (dy / 10), digitChar (dy % 10), '/',
     digitChar (mo / 10), digitChar (mo % 10), '/',
     digitChar (y / 1000), digitChar (y / 100 % 10),
     digitChar (y / 10 % 10), digitChar (y % 10), ' ',
     digitChar (hr / 10), digitChar (hr % 10), ':',
     digitChar (mi / 10), digitChar (mi % 10)] from rfl]
  rw [parseChars]
  rw [if_pos ⟨rfl, rfl, rfl, rfl, e1.2, e2.2, e3.2, e4.2, e5.2, e6.2,
              e7.2, e8.2, e9.2, e10.2, e11.2, e12.2⟩]
  simp only [e1.1, e2.1, e3.1, e4.1, e5.1, e6.1, e7.1, e8.1, e9.1, e10.1, e11.1, e12.1]
  rw [show 1000 * (y / 1000) + 100 * (y / 100 % 10) + 10 * (y / 10 % 10) + y % 10 = y from by omega]
  rw [show 10 * (mo / 10) + mo % 10 = mo from by omega]
  rw [show 10 * (dy / 10) + dy % 10 = dy from by omega]
  rw [show 10 * (hr / 10) + hr % 10 = hr from by omega]
  rw [show 10 * (mi / 10) + mi % 10 = mi from by omega]
  rw [if_pos]
  simp only [DateTime.valid, Bool.and_eq_true, decide_eq_true_eq]
  exact ⟨⟨⟨⟨⟨⟨⟨h1, h2⟩, h3⟩, h4⟩, h5⟩, h6⟩, h7⟩, h8⟩

/-- Witness for C9 at a leap-day timestamp. -/
theorem parseDate_formatDate_witness :
    (⟨2024, 2, 29, 15, 45⟩ : DateTime).valid = true ∧
    parseDate (formatDate ⟨2024, 2, 29, 15, 45⟩) = some ⟨2024, 2, 29, 15, 45⟩ :=
  ⟨by decide, parseDate_formatDate ⟨2024, 2, 29, 15, 45⟩ (by decide)⟩

/-! ### C3: phone uniqueness after every committed mutation -/

/-- C3.  The full-edit path violates per-campaign phone uniqueness: the
people state of the edit form opens as the stored roster
(`editFormInitialPeople`), and submitting merges the stored roster with
that state again, so an edit of campaign w0 that changes nothing
produces a roster in which the person appears twice and
`phonesUnique` fails, although it held beforehand. -/
theorem edit_breaks_phone_uniqueness :
    phonesUnique w0.people = true ∧
    ((handleSubmit [w0] (some w0) "unused" w0.name dt0 dt0 dt0 w0.recordingStatus w0.status
        (editFormInitialPeople w0)).all (fun c => phonesUnique c.people)) = false := by
  decide

end CampaignApp

namespace CampaignApp

/-! ### C4: duplicate phone detection -/

/-- C4, counterexample.  The duplicate test compares the stored phone
strings for raw equality after display formatting, not the
digit-normalized phones: a candidate typed as thirteen digits is
truncated to ten digits by the display grouping, collides with the
stored phone of Ana, and is rejected as a duplicate although its
digit-normalized phone differs from every digit-normalized stored
phone of the roster. -/
theorem duplicate_check_not_digit_normalized :
    handleAddPerson [a0] "c3" "Luz" "Diaz" "5551234567999" "p9" =
      Except.error OpError.duplicatePhone ∧
    (∀ p ∈ a0.people, stripDigits p.phone ≠ stripDigits "5551234567999") := by
  decide

/-- C4, amended.  For a found, non-finished campaign and inputs passing
field validation, the add is rejected as a duplicate exactly when the
display-formatted candidate phone equals the stored phone of some person
of that roster as a string; since stored phones are themselves
display-formatted, this amounts to comparing the first ten digits of the
normalizations.  A rejection returns before anything is written, so the
roster is unchanged. -/
theorem addPerson_duplicate_iff (campaigns : List Campaign) (c : Campaign)
    (campaignId nameIn lastIn phoneTyped newId : String)
    (hfind : campaigns.find? (fun x => x.id == campaignId) = some c)
    (hstatus : c.status ≠ CampaignStatus.finalizada)
    (hname : isValidName nameIn = true) (hlast : isValidName lastIn = true)
    (hphone : isValidPhoneNumber (formatPhoneNumber phoneTyped) = true) :
    handleAddPerson campaigns campaignId nameIn lastIn phoneTyped newId =
        Except.error OpError.duplicatePhone ↔
      ∃ p ∈ c.people, p.phone = formatPhoneNumber phoneTyped := by
  simp only [handleAddPerson, hfind]
  rw [if_neg hstatus]
  rw [if_neg (by simp [hname, hlast, hphone])]
  by_cases hdup : c.people.any (fun p => p.phone == formatPhoneNumber phoneTyped) = true
  · rw [if_pos hdup]
    simp only [List.any_eq_true, beq_iff_eq] at hdup
    exact iff_of_true rfl hdup
  · rw [if_neg hdup]
    simp only [List.any_eq_true, beq_iff_eq] at hdup
    exact iff_of_false (by simp) hdup

/-- Witness for the amended C4 at the concrete scenario of the spec: the
roster of a0 holds the phone typed as 555 123 4567 in stored form, and a
second add typed as 5551234567 is rejected as a duplicate. -/
theorem addPerson_duplicate_iff_witness :
    (([a0].find? (fun x => x.id == "c3") = some a0) ∧
     a0.status ≠ CampaignStatus.finalizada ∧
     isValidName "Luz" = true ∧ isValidName "Diaz" = true ∧
     isValidPhoneNumber (formatPhoneNumber "5551234567") = true) ∧
    (handleAddPerson [a0] "c3" "Luz" "Diaz" "5551234567" "p9" =
        Except.error OpError.duplicatePhone ↔
      ∃ p ∈ a0.people, p.phone = formatPhoneNumber "5551234567") :=
  ⟨⟨by decide, by decide, by decide, by decide, by decide⟩,
   addPerson_duplicate_iff [a0] a0 "c3" "Luz" "Diaz" "5551234567" "p9"
     (by decide) (by decide) (by decide) (by decide) (by decide)⟩

/-! ### C5: stored phone value -/

/-- C5, counterexample.  A successful add stores the display-formatted
phone, not the typed validation input: typing ten bare digits stores the
grouped (AAA) BBB-CCCC form. -/
theorem stored_phone_not_as_typed :
    handleAddPerson [a0] "c3" "Luz" "Diaz" "9871234567" "p9" =
      Except.ok [{ a0 with
        people := a0.people ++ [⟨"p9", "Luz", "Diaz", "(987) 123-4567"⟩] }] ∧
    "(987) 123-4567" ≠ "9871234567" := by
  decide

/-- C5, amended.  The phone stored for a newly added person is
formatPhoneNumber applied to the typed input - the digit grouping is
applied on every change of the input field and the formatted string is
what the state keeps, validates and stores; digits beyond the tenth are
dropped by the grouping. -/
theorem addPerson_stores_formatted (campaigns : List Campaign) (c : Campaign)
    (campaignId nameIn lastIn phoneTyped newId : String)
    (hfind : campaigns.find? (fun x => x.id == campaignId) = some c)
    (hstatus : c.status ≠ CampaignStatus.finalizada)
    (hname : isValidName nameIn = true) (hlast : isValidName lastIn = true)
    (hphone : isValidPhoneNumber (formatPhoneNumber phoneTyped) = true)
    (hnodup : ∀ p ∈ c.people, p.phone ≠ formatPhoneNumber phoneTyped) :
    handleAddPerson campaigns campaignId nameIn lastIn phoneTyped newId =
      Except.ok (campaigns.map (fun x =>
        if x.id == c.id then
          { c with people := c.people ++ [⟨newId, nameIn, lastIn, formatPhoneNumber phoneTyped⟩] }
        else x)) := by
  simp only [handleAddPerson, hfind]
  rw [if_neg hstatus]
  rw [if_neg (by simp [hname, hlast, hphone])]
  rw [if_neg (by simp only [List.any_eq_true, beq_iff_eq]; push_neg; exact hnodup)]

/-- Witness for the amended C5 at a concrete successful add. -/
theorem addPerson_stores_formatted_witness :
    (([a0].find? (fun x => x.id == "c3") = some a0) ∧
     a0.status ≠ CampaignStatus.finalizada ∧
     isValidName "Luz" = true ∧ isValidName "Diaz" = true ∧
     isValidPhoneNumber (formatPhoneNumber "9871234567") = true ∧
     (∀ p ∈ a0.people, p.phone ≠ formatPhoneNumber "9871234567")) ∧
    handleAddPerson [a0] "c3" "Luz" "Diaz" "9871234567" "p9" =
      Except.ok ([a0].map (fun x =>
        if x.id == a0.id then
          { a0 with people := a0.people ++ [⟨"p9", "Luz", "Diaz", formatPhoneNumber "9871234567"⟩] }
        else x)) :=
  ⟨⟨by decide, by decide, by decide, by decide, by decide, by decide⟩,
   addPerson_stores_formatted [a0] a0 "c3" "Luz" "Diaz" "9871234567" "p9"
     (by decide) (by decide) (by decide) (by decide) (by decide) (by decide)⟩

/-! ### C6: name validation -/

/-- C6, counterexample.  The name test is not the Unicode-aware
trimmed-letters-or-spaces validator of the claim: the letter u with
diaeresis is a Unicode letter accepted by the claim but rejected by the
code, and a whitespace-only string is accepted by the code although its
trimmed form is empty. -/
theorem name_class_not_unicode :
    (isValidName "ü" = false ∧ specNameAccepts "ü" = true) ∧
    (isValidName " " = true ∧ specNameAccepts " " = false) := by
  decide

/-- C6, amended.  The validator accepts exactly the nonempty strings
whose every character is an ASCII letter, one of the twelve accented
characters listed in the regex, or regex whitespace: no trimming takes
place, other Unicode letters are rejected, and whitespace-only strings
are accepted. -/
theorem isValidName_iff (s : String) :
    isValidName s = true ↔
      s.data ≠ [] ∧ ∀ c ∈ s.data,
        (c.isAlpha = true ∨ spanishAccent c = true ∨ jsWhitespace c = true) := by
  simp [isValidName, allowedNameChar, List.all_eq_true, Bool.or_eq_true,
    List.isEmpty_iff, or_assoc]

/-! ### C7: terminal immutability -/

/-- C7.  For a found campaign whose status is Finalizada, adding a
person, removing a person and deleting the campaign are each rejected
with the invalid-transition error, and a rejection returns before
anything is persisted, so the campaign set is unchanged; moreover a
finish can only succeed on an Activa campaign and a delete can only
succeed on an En espera campaign. -/
theorem finished_is_terminal (campaigns : List Campaign) (c : Campaign)
    (campaignId nameIn lastIn phoneTyped newId personId : String)
    (hfind : campaigns.find? (fun x => x.id == campaignId) = some c) :
    (c.status = CampaignStatus.finalizada →
      handleAddPerson campaigns campaignId nameIn lastIn phoneTyped newId =
        Except.error OpError.invalidTransition ∧
      handleDeletePerson campaigns campaignId personId = Except.error OpError.invalidTransition ∧
      handleDelete campaigns campaignId = Except.error OpError.invalidTransition) ∧
    (∀ result, handleFinish campaigns campaignId = Except.ok result →
      c.status = CampaignStatus.activa) ∧
    (∀ result, handleDelete campaigns campaignId = Except.ok result →
      c.status = CampaignStatus.enEspera) := by
  refine ⟨?_, ?_, ?_⟩
  · intro hf
    refine ⟨?_, ?_, ?_⟩
    · simp only [handleAddPerson, hfind]
      rw [if_pos hf]
    · simp only [handleDeletePerson, hfind]
      rw [if_pos hf]
    · simp only [handleDelete, hfind]
      rw [if_neg (by simp [hf])]
  · intro result h
    simp only [handleFinish, hfind] at h
    by_cases ha : c.status = CampaignStatus.activa
    · exact ha
    · rw [if_neg ha] at h
      exact absurd h (by simp)
  · intro result h
    simp only [handleDelete, hfind] at h
    by_cases hw : c.status = CampaignStatus.enEspera
    · exact hw
    · rw [if_neg hw] at h
      exact absurd h (by simp)

/-- Witness for C7 at the concrete finished campaign f0. -/
theorem finished_is_terminal_witness :
    ([f0].find? (fun x => x.id == "c4") = some f0) ∧
    ((f0.status = CampaignStatus.finalizada →
      handleAddPerson [f0] "c4" "Luz" "Diaz" "9871234567" "p9" =
        Except.error OpError.invalidTransition ∧
      handleDeletePerson [f0] "c4" "p1" = Except.error OpError.invalidTransition ∧
      handleDelete [f0] "c4" = Except.error OpError.invalidTransition) ∧
    (∀ result, handleFinish [f0] "c4" = Except.ok result →
      f0.status = CampaignStatus.activa) ∧
    (∀ result, handleDelete [f0] "c4" = Except.ok result →
      f0.status = CampaignStatus.enEspera)) :=
  ⟨by decide,
   finished_is_terminal [f0] f0 "c4" "Luz" "Diaz" "9871234567" "p9" "p1" (by decide)⟩

end CampaignApp
